import Mathlib

/-
Verification of github3.pulls (pull requests, pull files, reviews and
review comments) against its specification.

The module is a data-binding layer: record types built from wire-format
JSON, plus methods that issue a single HTTP request through an injected
client and decode the response.  We embed the JSON values, the record
types and every method of src/github3/pulls.py.  The base class
models.GitHubCore (attribute getters, the json/boolean decoders, the URL
builder, the pagination helper) is not part of the sources; those helpers
are modelled from the specification and are marked as such.  HTTP effects
are made explicit: each method takes the injected client as a function
from requests to responses and returns, besides its result, the list of
requests it issued.
-/

namespace GH3

/-- Wire-format JSON values. Python None is represented by null. -/
inductive Json where
  | null : Json
  | bool : Bool → Json
  | num : Int → Json
  | str : String → Json
  | arr : List Json → Json
  | obj : List (String × Json) → Json
deriving Repr

/-- Dictionary lookup: the value stored under a key of a JSON object,
none when the key is absent or the value is not an object. -/
def Json.lookup : Json → String → Option Json
  | Json.obj fields, k => List.lookup k fields
  | _, _ => none

/-- Python truthiness of a decoded JSON value: null, False, 0, the empty
string, the empty array and the empty object are falsy. -/
def Json.isTruthy : Json → Bool
  | Json.null => false
  | Json.bool b => b
  | Json.num n => n != 0
  | Json.str s => !(s.isEmpty)
  | Json.arr xs => !(xs.isEmpty)
  | Json.obj fs => !(fs.isEmpty)

/-- The Python test v is None: true exactly on null. -/
def Json.isNull : Json → Bool
  | Json.null => true
  | _ => false

mutual

/-- Python value equality of two JSON values, as in id comparison. -/
def Json.beq : Json → Json → Bool
  | Json.null, Json.null => true
  | Json.bool a, Json.bool b => a == b
  | Json.num a, Json.num b => a == b
  | Json.str a, Json.str b => a == b
  | Json.arr xs, Json.arr ys => Json.beqList xs ys
  | Json.obj fs, Json.obj gs => Json.beqFields fs gs
  | _, _ => false

/-- Elementwise equality of JSON arrays. -/
def Json.beqList : List Json → List Json → Bool
  | [], [] => true
  | x :: xs, y :: ys => Json.beq x y && Json.beqList xs ys
  | _, _ => false

/-- Elementwise equality of JSON object field lists. -/
def Json.beqFields : List (String × Json) → List (String × Json) → Bool
  | [], [] => true
  | (k, v) :: fs, (l, w) :: gs =>
      k == l && Json.beq v w && Json.beqFields fs gs
  | _, _ => false

end

/-- The string payload of a JSON value, used where the code treats a
stored attribute as a URL string. -/
def Json.asString : Json → String
  | Json.str s => s
  | _ => ""

/-- Python subscript access j[k]; a missing key raises KeyError in
Python, modelled as null (no claim exercises the raising case). -/
def Json.index (j : Json) (k : String) : Json :=
  match j.lookup k with
  | some v => v
  | none => Json.null

/-- Modelled from the spec: models.GitHubCore attribute getter, absent
from the sources. A record field is populated from the corresponding key
of the wire JSON object; a missing key yields the given default. -/
def getAttribute (j : Json) (key : String) (default : Json) : Json :=
  match j.lookup key with
  | some v => v
  | none => default

/-- Modelled from the spec: models.GitHubCore datetime attribute getter,
absent from the sources. Datetime parsing is delegated to an external
collaborator and out of scope; the field holds the raw wire value. -/
def strptimeAttribute (j : Json) (key : String) : Json :=
  getAttribute j key Json.null

/-- Modelled from the spec: models.GitHubCore class-valued attribute
getter, absent from the sources. A truthy value under the key is handed
to the record constructor, anything else yields no object. -/
def classAttribute (j : Json) (key : String) (mk : Json → α) : Option α :=
  match j.lookup key with
  | some v => if v.isTruthy then some (mk v) else none
  | none => none

/-- Modelled from the spec: external record type (github3.users.User)
whose internals are out of scope; it keeps its wire JSON. -/
structure User where
  raw : Json
deriving Repr

/-- Modelled from the spec: external record type (github3.repos.repo
Repository) whose internals are out of scope; it keeps its wire JSON. -/
structure Repository where
  raw : Json
deriving Repr

/-- Modelled from the spec: external record type (github3.issues.Issue)
whose internals are out of scope; it keeps its wire JSON. -/
structure Issue where
  raw : Json
deriving Repr

/-- Modelled from the spec: external record type
(github3.issues.comment.IssueComment), out of scope; keeps its JSON. -/
structure IssueComment where
  raw : Json
deriving Repr

/-- Modelled from the spec: external record type
(github3.repos.contents.Contents), out of scope; keeps its JSON. -/
structure Contents where
  raw : Json
deriving Repr

/-- Modelled from the spec: external record type
(github3.repos.commit.RepoCommit), out of scope; keeps its JSON. -/
structure RepoCommit where
  raw : Json
deriving Repr

/-- Modelled from the spec: uritemplate.URITemplate, an external
collaborator; it keeps the template value it was built from. -/
structure URITemplate where
  raw : Json
deriving Repr

/-- PullDestination: one side (base or head) of a pull request, built
from the wire JSON and a direction label. -/
structure PullDestination where
  direction : String
  ref : Json
  label : Json
  user : Option User
  sha : Json
  repoName : Json
  repoOwner : Json
  repository : Option Repository
  repo : Json × Json
deriving Repr

/-- Constructor of PullDestination, following the source line by line:
ref, label and sha come from their keys, user is built when present and
truthy, and the repo pair is (owner login, repository name) when the
repo key is truthy, with empty strings otherwise. -/
def PullDestination.fromWire (dest : Json) (direction : String) : PullDestination :=
  let user := if (getAttribute dest "user" Json.null).isTruthy
    then some (User.mk (getAttribute dest "user" Json.null))
    else none
  let repoTruthy := (getAttribute dest "repo" Json.null).isTruthy
  let repoJson := Json.index dest "repo"
  let repoName := if repoTruthy
    then getAttribute repoJson "name" Json.null else Json.str ""
  let repoOwner := if repoTruthy
    then getAttribute (Json.index repoJson "owner") "login" Json.null
    else Json.str ""
  { direction := direction
    ref := getAttribute dest "ref" Json.null
    label := getAttribute dest "label" Json.null
    user := user
    sha := getAttribute dest "sha" Json.null
    repoName := repoName
    repoOwner := repoOwner
    repository := if repoTruthy
      then some (Repository.mk (getAttribute dest "repo" Json.null)) else none
    repo := (repoOwner, repoName) }

/-- PullFile: one file touched by a pull request. -/
structure PullFile where
  sha : Json
  filename : Json
  status : Json
  additions_count : Json
  deletions_count : Json
  changes_count : Json
  blob_url : Json
  raw_url : Json
  patch : Json
  contents_url : Json
deriving Repr

/-- Constructor of PullFile from the wire JSON, one field per key as in
PullFile._update_attributes. -/
def PullFile.fromWire (pfile : Json) : PullFile :=
  { sha := getAttribute pfile "sha" Json.null
    filename := getAttribute pfile "filename" Json.null
    status := getAttribute pfile "status" Json.null
    additions_count := getAttribute pfile "additions" Json.null
    deletions_count := getAttribute pfile "deletions" Json.null
    changes_count := getAttribute pfile "changes" Json.null
    blob_url := getAttribute pfile "blob_url" Json.null
    raw_url := getAttribute pfile "raw_url" Json.null
    patch := getAttribute pfile "patch" Json.null
    contents_url := getAttribute pfile "contents_url" Json.null }

/-- One HTTP request handed to the injected client: verb, target URL
(the stored JSON value the code passes), payload and extra headers. -/
structure HttpRequest where
  verb : String
  url : Json
  payload : Json
  headers : List (String × String)
deriving Repr

/-- One HTTP response: status code, decoded JSON body and the raw byte
content (modelled as a string, used by the diff and patch methods). -/
structure HttpResponse where
  status : Nat
  body : Json
  content : String
deriving Repr

/-- The injected HTTP client, an external collaborator: a map from
requests to responses. -/
def HttpClient : Type := HttpRequest → HttpResponse

/-- A GET request on a URL with extra headers. -/
def getReq (url : Json) (headers : List (String × String)) : HttpRequest :=
  { verb := "GET", url := url, payload := Json.null, headers := headers }

/-- A POST request carrying a JSON payload. -/
def postReq (url : Json) (payload : Json) : HttpRequest :=
  { verb := "POST", url := url, payload := payload, headers := [] }

/-- A PATCH request carrying a JSON payload. -/
def patchReq (url : Json) (payload : Json) : HttpRequest :=
  { verb := "PATCH", url := url, payload := payload, headers := [] }

/-- A PUT request carrying a JSON payload. -/
def putReq (url : Json) (payload : Json) : HttpRequest :=
  { verb := "PUT", url := url, payload := payload, headers := [] }

/-- Modelled from the spec: models.GitHubCore JSON decoding helper,
absent from the sources. The body of a response with the expected status
is the decoded value; any other status decodes to null (Python None). -/
def jsonHelper (resp : HttpResponse) (expected : Nat) : Json :=
  if resp.status = expected then resp.body else Json.null

/-- Modelled from the spec: models.GitHubCore boolean status check,
absent from the sources. True exactly at the expected success status;
the second argument is the tolerated error status, and statuses outside
the pair raise in Python, out of the modelled behaviour. -/
def booleanHelper (resp : HttpResponse) (ok : Nat) (_notok : Nat) : Bool :=
  resp.status == ok

/-- Modelled from the spec: models.GitHubCore instance-or-null helper,
absent from the sources. A truthy decoded JSON value is handed to the
record constructor; a falsy one yields no object. -/
def instanceOrNull (mk : Json → α) (j : Json) : Option α :=
  if j.isTruthy then some (mk j) else none

/-- Modelled from the spec: models.GitHubCore URL builder, absent from
the sources. It appends one path segment to a base URL. -/
def buildUrl (segment : String) (baseUrl : Json) : Json :=
  Json.str (baseUrl.asString ++ "/" ++ segment)

/-- Modelled from the spec: models.GitHubCore payload cleanup, absent
from the sources. Dictionary entries whose value is None are dropped. -/
def removeNone (data : List (String × Json)) : List (String × Json) :=
  data.filter (fun kv => !(kv.2.isNull))

/-- Modelled from the spec: the generic lazy pagination helper (the
GitHubIterator built by models.GitHubCore, absent from the sources)
shared across list-returning methods. It records the requested count,
the endpoint URL, the element record constructor, the etag and the extra
headers; fetching is deferred until iteration and out of scope. -/
structure GitHubIterator (α : Type) where
  count : Int
  url : Json
  parse : Json → α
  etag : Option String
  headers : List (String × String)

/-- Modelled from the spec: the shared entry point building the lazy
pagination sequence from a count, a URL and an element type. -/
def iterHelper (count : Int) (url : Json) (parse : Json → α)
    (etag : Option String) (headers : List (String × String)) :
    GitHubIterator α :=
  { count := count, url := url, parse := parse, etag := etag,
    headers := headers }

/-- PullRequest: the pull request record, one field per documented
attribute of PullRequest._update_attributes. The api field holds the
URL of the pull request (the undocumented _api attribute). -/
structure PullRequest where
  api : Json
  base : Option PullDestination
  body : Json
  body_html : Json
  body_text : Json
  additions_count : Json
  deletions_count : Json
  closed_at : Json
  comments_count : Json
  comments_url : Json
  commits_count : Json
  commits_url : Json
  created_at : Json
  diff_url : Json
  head : Option PullDestination
  html_url : Json
  id : Json
  issue_url : Json
  statuses_url : Json
  links : Json
  merged : Json
  merged_at : Json
  mergeable : Json
  mergeable_state : Json
  merged_by : Option User
  number : Json
  patch_url : Json
  review_comment_url : Option URITemplate
  review_comments_count : Json
  review_comments_url : Json
  repository : Option (Json × Json)
  state : Json
  title : Json
  updated_at : Json
  user : Option User
  assignee : Option User
deriving Repr

/-- Constructor of PullRequest from the wire JSON, following
PullRequest._update_attributes key for key; the repository field is the
repo pair of the base destination when the base is present. -/
def PullRequest.fromWire (pull : Json) : PullRequest :=
  let base := classAttribute pull "base"
    (fun v => PullDestination.fromWire v "Base")
  { api := getAttribute pull "url" Json.null
    base := base
    body := getAttribute pull "body" Json.null
    body_html := getAttribute pull "body_html" Json.null
    body_text := getAttribute pull "body_text" Json.null
    additions_count := getAttribute pull "additions" Json.null
    deletions_count := getAttribute pull "deletions" Json.null
    closed_at := strptimeAttribute pull "closed_at"
    comments_count := getAttribute pull "comments" Json.null
    comments_url := getAttribute pull "comments_url" Json.null
    commits_count := getAttribute pull "commits" Json.null
    commits_url := getAttribute pull "commits_url" Json.null
    created_at := strptimeAttribute pull "created_at"
    diff_url := getAttribute pull "diff_url" Json.null
    head := classAttribute pull "head"
      (fun v => PullDestination.fromWire v "Head")
    html_url := getAttribute pull "html_url" Json.null
    id := getAttribute pull "id" Json.null
    issue_url := getAttribute pull "issue_url" Json.null
    statuses_url := getAttribute pull "statuses_url" Json.null
    links := getAttribute pull "_links" (Json.obj [])
    merged := getAttribute pull "merged" Json.null
    merged_at := strptimeAttribute pull "merged_at"
    mergeable := getAttribute pull "mergeable" (Json.bool false)
    mergeable_state := getAttribute pull "mergeable_state" Json.null
    merged_by := classAttribute pull "merged_by" User.mk
    number := getAttribute pull "number" Json.null
    patch_url := getAttribute pull "patch_url" Json.null
    review_comment_url := classAttribute pull "review_comment_url" URITemplate.mk
    review_comments_count := getAttribute pull "review_comments" Json.null
    review_comments_url := getAttribute pull "review_comments_url" Json.null
    repository := base.map (fun b => b.repo)
    state := getAttribute pull "state" Json.null
    title := getAttribute pull "title" Json.null
    updated_at := strptimeAttribute pull "updated_at"
    user := classAttribute pull "user" User.mk
    assignee := classAttribute pull "assignee" User.mk }

/-- PullReview: a review on a pull request, one field per documented
attribute of PullReview._update_attributes. -/
structure PullReview where
  id : Json
  commit_id : Json
  user : Option User
  state : Json
  created_at : Json
  body : Json
  pull_request_url : Json
deriving Repr

/-- Constructor of PullReview from the wire JSON, key for key as in
PullReview._update_attributes. -/
def PullReview.fromWire (preview : Json) : PullReview :=
  { id := getAttribute preview "id" Json.null
    commit_id := getAttribute preview "commit_id" Json.null
    user := classAttribute preview "user" User.mk
    state := getAttribute preview "state" Json.null
    created_at := strptimeAttribute preview "created_at"
    body := getAttribute preview "body" Json.null
    pull_request_url := getAttribute preview "pull_request_url" Json.null }

/-- ReviewComment: a comment on a pull request review. The first five
fields come from the base comment class (github3.issues.comment
BaseComment, absent from the sources and modelled from the spec: it
populates the API URL, id, body and timestamps from the wire JSON); the
rest follow ReviewComment._update_attributes. -/
structure ReviewComment where
  api : Json
  id : Json
  body : Json
  created_at : Json
  updated_at : Json
  user : Option User
  original_position : Json
  path : Json
  position : Json
  commit_id : Json
  diff_hunk : Json
  original_commit_id : Json
  pull_request_url : Json
deriving Repr

/-- Constructor of ReviewComment from the wire JSON: the base comment
fields (modelled from the spec, see ReviewComment) and then key for key
as in ReviewComment._update_attributes. -/
def ReviewComment.fromWire (comment : Json) : ReviewComment :=
  { api := getAttribute comment "url" Json.null
    id := getAttribute comment "id" Json.null
    body := getAttribute comment "body" Json.null
    created_at := strptimeAttribute comment "created_at"
    updated_at := strptimeAttribute comment "updated_at"
    user := classAttribute comment "user" User.mk
    original_position := getAttribute comment "original_position" Json.null
    path := getAttribute comment "path" Json.null
    position := getAttribute comment "position" Json.null
    commit_id := getAttribute comment "commit_id" Json.null
    diff_hunk := getAttribute comment "diff_hunk" Json.null
    original_commit_id := getAttribute comment "original_commit_id" Json.null
    pull_request_url := getAttribute comment "pull_request_url" Json.null }

/-
Methods.  Each method takes the injected client explicitly and returns
its result together with the list of HTTP requests it issued, in order.
The requires_auth decorator only checks for stored credentials before
the body runs (authentication mechanics are delegated to the external
base client and out of scope per the spec); the methods below model the
authorized execution of the body.
-/

/-- PullFile.contents: GET the stored contents_url, decode at 200 into a
Contents record or null. -/
def PullFile.contents (f : PullFile) (client : HttpClient) :
    Option Contents × List HttpRequest :=
  let req := getReq f.contents_url []
  let json := jsonHelper (client req) 200
  (instanceOrNull Contents.mk json, [req])

/-- PullRequest.create_comment: POST the comment body to the stored
comments_url when the body is truthy, decode at 201 into an
IssueComment; a falsy body issues no request and yields null. -/
def PullRequest.create_comment (p : PullRequest) (client : HttpClient)
    (body : Json) : Option IssueComment × List HttpRequest :=
  let url := p.comments_url
  if body.isTruthy then
    let req := postReq url (Json.obj [("body", body)])
    let json := jsonHelper (client req) 201
    (instanceOrNull IssueComment.mk json, [req])
  else
    (instanceOrNull IssueComment.mk Json.null, [])

/-- PullRequest.create_review_comment: POST body, commit id, path and
position to the comments sub-URL of the pull request, decode at 201. -/
def PullRequest.create_review_comment (p : PullRequest)
    (client : HttpClient) (body : Json) (commit_id : Json) (path : Json)
    (position : Int) : Option ReviewComment × List HttpRequest :=
  let url := buildUrl "comments" p.api
  let data := Json.obj [("body", body), ("commit_id", commit_id),
    ("path", path), ("position", Json.num position)]
  let req := postReq url data
  let json := jsonHelper (client req) 201
  (instanceOrNull ReviewComment.fromWire json, [req])

/-- PullRequest.diff: GET the pull request URL with the diff Accept
header; the raw content at status 200, the empty bytestring at 404. -/
def PullRequest.diff (p : PullRequest) (client : HttpClient) :
    String × List HttpRequest :=
  let req := getReq p.api [("Accept", "application/vnd.github.diff")]
  let resp := client req
  ((if booleanHelper resp 200 404 then resp.content else ""), [req])

/-- PullRequest.is_merged: a truthy stored merged attribute is returned
without any request; otherwise GET the merge sub-URL and report whether
the status is 204 (404 meaning not merged). -/
def PullRequest.is_merged (p : PullRequest) (client : HttpClient) :
    Json × List HttpRequest :=
  if p.merged.isTruthy then
    (p.merged, [])
  else
    let url := buildUrl "merge" p.api
    let req := getReq url []
    (Json.bool (booleanHelper (client req) 204 404), [req])

/-- PullRequest.issue: GET the stored issue_url, decode at 200 into an
Issue record or null. -/
def PullRequest.issue (p : PullRequest) (client : HttpClient) :
    Option Issue × List HttpRequest :=
  let req := getReq p.issue_url []
  let json := jsonHelper (client req) 200
  (instanceOrNull Issue.mk json, [req])

/-- PullRequest.commits: the lazy sequence over the commits sub-URL. -/
def PullRequest.commits (p : PullRequest) (number : Int)
    (etag : Option String) : GitHubIterator RepoCommit :=
  let url := buildUrl "commits" p.api
  iterHelper number url RepoCommit.mk etag []

/-- PullRequest.files: the lazy sequence over the files sub-URL. -/
def PullRequest.files (p : PullRequest) (number : Int)
    (etag : Option String) : GitHubIterator PullFile :=
  let url := buildUrl "files" p.api
  iterHelper number url PullFile.fromWire etag []

/-- PullRequest.issue_comments: the lazy sequence over the issue comment
endpoint, taken from the comments link when present and otherwise built
from the pull request URL with pulls replaced by issues. -/
def PullRequest.issue_comments (p : PullRequest) (number : Int)
    (etag : Option String) : GitHubIterator IssueComment :=
  let comments := getAttribute p.links "comments" (Json.obj [])
  let url := getAttribute comments "href" Json.null
  let url := if !url.isTruthy then
      buildUrl "comments"
        (Json.str ((p.api.asString).replace "pulls" "issues"))
    else url
  iterHelper number url IssueComment.mk etag []

/-- PullRequest.merge: PUT to the merge sub-URL a payload with squash,
sha only when truthy and commit_message only when not None; a falsy
decoded 200 response yields False, a truthy one its merged field. -/
def PullRequest.merge (p : PullRequest) (client : HttpClient)
    (commit_message : Json) (sha : Json) (squash : Json) :
    Json × List HttpRequest :=
  let parameters := [("squash", squash)]
  let parameters := if sha.isTruthy
    then parameters ++ [("sha", sha)] else parameters
  let parameters := if !commit_message.isNull
    then parameters ++ [("commit_message", commit_message)]
    else parameters
  let url := buildUrl "merge" p.api
  let req := putReq url (Json.obj parameters)
  let json := jsonHelper (client req) 200
  if !json.isTruthy then
    (Json.bool false, [req])
  else
    (Json.index json "merged", [req])

/-- PullRequest.patch: GET the pull request URL with the patch Accept
header; the raw content at status 200, the empty bytestring at 404. -/
def PullRequest.patch (p : PullRequest) (client : HttpClient) :
    String × List HttpRequest :=
  let req := getReq p.api [("Accept", "application/vnd.github.patch")]
  let resp := client req
  ((if booleanHelper resp 200 404 then resp.content else ""), [req])

/-- PullRequest.review_comments: the lazy sequence over the review
comment sub-URL of the pull request. -/
def PullRequest.review_comments (p : PullRequest) (number : Int)
    (etag : Option String) : GitHubIterator ReviewComment :=
  let url := buildUrl "comments" p.api
  iterHelper number url ReviewComment.fromWire etag []

/-- PullRequest.reviews: the lazy sequence over the reviews sub-URL,
carrying the preview Accept header. -/
def PullRequest.reviews (p : PullRequest) (number : Int)
    (etag : Option String) : GitHubIterator PullReview :=
  let headers :=
    [("Accept", "application/vnd.github.black-cat-preview+json")]
  let url := buildUrl "reviews" p.api
  iterHelper number url PullReview.fromWire etag headers

/-- PullRequest.update: PATCH the pull request URL with the non-None
entries among title, body and state; with all three None no request is
issued. A truthy decoded 200 response repopulates the record and yields
True, anything else yields False and leaves the record unchanged. -/
def PullRequest.update (p : PullRequest) (client : HttpClient)
    (title : Json) (body : Json) (state : Json) :
    Bool × PullRequest × List HttpRequest :=
  let data := removeNone [("title", title), ("body", body),
    ("state", state)]
  if !data.isEmpty then
    let req := patchReq p.api (Json.obj data)
    let json := jsonHelper (client req) 200
    if json.isTruthy then
      (true, PullRequest.fromWire json, [req])
    else
      (false, p, [req])
  else
    (false, p, [])

/-- PullRequest.close: update with the stored title and body and the
state closed. -/
def PullRequest.close (p : PullRequest) (client : HttpClient) :
    Bool × PullRequest × List HttpRequest :=
  p.update client p.title p.body (Json.str "closed")

/-- PullRequest.reopen: update with the stored title and body and the
state open. -/
def PullRequest.reopen (p : PullRequest) (client : HttpClient) :
    Bool × PullRequest × List HttpRequest :=
  p.update client p.title p.body (Json.str "open")

/-- The suffix of a string after its last slash: the Python slice
s[s.rfind(slash) + 1:], the whole string when no slash occurs. -/
def afterLastSlash (s : String) : String :=
  List.getLastD (s.splitOn "/") s

/-- ReviewComment.reply: POST a body and the in_reply_to id taken from
the tail of the stored API URL to the comments sub-URL of the stored
pull_request_url, decoded at 201 into a ReviewComment. -/
def ReviewComment.reply (c : ReviewComment) (client : HttpClient)
    (body : Json) : Option ReviewComment × List HttpRequest :=
  let url := buildUrl "comments" c.pull_request_url
  let in_reply_to := Json.str (afterLastSlash c.api.asString)
  let req := postReq url
    (Json.obj [("body", body), ("in_reply_to", in_reply_to)])
  let json := jsonHelper (client req) 201
  (instanceOrNull ReviewComment.fromWire json, [req])

/-- Modelled from the spec: the equality documented on PullRequest (two
pull request instances compare equal exactly when their ids do), whose
implementation lives in the base class absent from the sources. -/
def PullRequest.eqById (p1 p2 : PullRequest) : Bool :=
  Json.beq p1.id p2.id

/-- Modelled from the spec: the documented inequality of PullRequest,
the negation of the id comparison. -/
def PullRequest.neById (p1 p2 : PullRequest) : Bool :=
  !(PullRequest.eqById p1 p2)

/-- Modelled from the spec: the equality documented on ReviewComment
(two comment instances compare equal exactly when their ids do). -/
def ReviewComment.eqById (c1 c2 : ReviewComment) : Bool :=
  Json.beq c1.id c2.id

/-- Modelled from the spec: the documented inequality of ReviewComment,
the negation of the id comparison. -/
def ReviewComment.neById (c1 c2 : ReviewComment) : Bool :=
  !(ReviewComment.eqById c1 c2)

/-- A sample wire JSON object for a pull request, used to instantiate
theorems on concrete inputs. -/
def samplePullJson : Json := Json.obj [
  ("url", Json.str "https://api.github.com/repos/o/r/pulls/1"),
  ("id", Json.num 177),
  ("issue_url", Json.str "https://api.github.com/repos/o/r/issues/1"),
  ("comments_url",
    Json.str "https://api.github.com/repos/o/r/issues/1/comments"),
  ("title", Json.str "t"),
  ("body", Json.str "b"),
  ("state", Json.str "open")]

/-- The sample pull request record. -/
def samplePR : PullRequest := PullRequest.fromWire samplePullJson

/-- A sample wire JSON object for a pull request file. -/
def sampleFileJson : Json := Json.obj [
  ("sha", Json.str "abc123"),
  ("filename", Json.str "a.py"),
  ("contents_url",
    Json.str "https://api.github.com/repos/o/r/contents/a.py")]

/-- The sample pull request file record. -/
def sampleFile : PullFile := PullFile.fromWire sampleFileJson

/-- A sample wire JSON object for a review comment. -/
def sampleCommentJson : Json := Json.obj [
  ("url", Json.str "https://api.github.com/repos/o/r/pulls/comments/9"),
  ("id", Json.num 9),
  ("pull_request_url",
    Json.str "https://api.github.com/repos/o/r/pulls/1")]

/-- The sample review comment record. -/
def sampleComment : ReviewComment := ReviewComment.fromWire sampleCommentJson

/-- A client answering every request with status 200 and an empty JSON
object as the decoded body. -/
def clientEmptyObj : HttpClient :=
  fun _ => { status := 200, body := Json.obj [], content := "" }

/-- A client answering every request with status 200 and a body whose
merged field is true. -/
def clientMergedTrue : HttpClient :=
  fun _ =>
    { status := 200, body := Json.obj [("merged", Json.bool true)],
      content := "diffdata" }

mutual

/-- Soundness of the JSON equality test: equal results are equal values. -/
def Json.eqOfBeq : (a b : Json) → Json.beq a b = true → a = b
  | Json.null, Json.null, _ => rfl
  | Json.null, Json.bool _, h => Bool.noConfusion h
  | Json.null, Json.num _, h => Bool.noConfusion h
  | Json.null, Json.str _, h => Bool.noConfusion h
  | Json.null, Json.arr _, h => Bool.noConfusion h
  | Json.null, Json.obj _, h => Bool.noConfusion h
  | Json.bool _, Json.null, h => Bool.noConfusion h
  | Json.bool _, Json.bool _, h => congrArg Json.bool (eq_of_beq h)
  | Json.bool _, Json.num _, h => Bool.noConfusion h
  | Json.bool _, Json.str _, h => Bool.noConfusion h
  | Json.bool _, Json.arr _, h => Bool.noConfusion h
  | Json.bool _, Json.obj _, h => Bool.noConfusion h
  | Json.num _, Json.null, h => Bool.noConfusion h
  | Json.num _, Json.bool _, h => Bool.noConfusion h
  | Json.num _, Json.num _, h => congrArg Json.num (eq_of_beq h)
  | Json.num _, Json.str _, h => Bool.noConfusion h
  | Json.num _, Json.arr _, h => Bool.noConfusion h
  | Json.num _, Json.obj _, h => Bool.noConfusion h
  | Json.str _, Json.null, h => Bool.noConfusion h
  | Json.str _, Json.bool _, h => Bool.noConfusion h
  | Json.str _, Json.num _, h => Bool.noConfusion h
  | Json.str _, Json.str _, h => congrArg Json.str (eq_of_beq h)
  | Json.str _, Json.arr _, h => Bool.noConfusion h
  | Json.str _, Json.obj _, h => Bool.noConfusion h
  | Json.arr _, Json.null, h => Bool.noConfusion h
  | Json.arr _, Json.bool _, h => Bool.noConfusion h
  | Json.arr _, Json.num _, h => Bool.noConfusion h
  | Json.arr _, Json.str _, h => Bool.noConfusion h
  | Json.arr xs, Json.arr ys, h =>
      congrArg Json.arr (Json.eqListOfBeqList xs ys h)
  | Json.arr _, Json.obj _, h => Bool.noConfusion h
  | Json.obj _, Json.null, h => Bool.noConfusion h
  | Json.obj _, Json.bool _, h => Bool.noConfusion h
  | Json.obj _, Json.num _, h => Bool.noConfusion h
  | Json.obj _, Json.str _, h => Bool.noConfusion h
  | Json.obj _, Json.arr _, h => Bool.noConfusion h
  | Json.obj fs, Json.obj gs, h =>
      congrArg Json.obj (Json.eqFieldsOfBeqFields fs gs h)

/-- Soundness of the elementwise array equality test. -/
def Json.eqListOfBeqList :
    (xs ys : List Json) → Json.beqList xs ys = true → xs = ys
  | [], [], _ => rfl
  | [], _ :: _, h => Bool.noConfusion h
  | _ :: _, [], h => Bool.noConfusion h
  | x :: xs, y :: ys, h => by
      have hp : Json.beq x y = true ∧ Json.beqList xs ys = true := by
        simpa [Json.beqList, Bool.and_eq_true] using h
      rw [Json.eqOfBeq x y hp.1, Json.eqListOfBeqList xs ys hp.2]

/-- Soundness of the elementwise object field equality test. -/
def Json.eqFieldsOfBeqFields :
    (fs gs : List (String × Json)) → Json.beqFields fs gs = true → fs = gs
  | [], [], _ => rfl
  | [], _ :: _, h => Bool.noConfusion h
  | _ :: _, [], h => Bool.noConfusion h
  | (k, v) :: fs, (l, w) :: gs, h => by
      have hp : (k == l) = true ∧ Json.beq v w = true ∧
          Json.beqFields fs gs = true := by
        simpa [Json.beqFields, Bool.and_eq_true, and_assoc] using h
      rw [eq_of_beq hp.1, Json.eqOfBeq v w hp.2.1,
        Json.eqFieldsOfBeqFields fs gs hp.2.2]

end

mutual

/-- Reflexivity of the JSON equality test. -/
def Json.beqRefl : (a : Json) → Json.beq a a = true
  | Json.null => rfl
  | Json.bool b => by simp [Json.beq]
  | Json.num n => by simp [Json.beq]
  | Json.str s => by simp [Json.beq]
  | Json.arr xs => Json.beqListRefl xs
  | Json.obj fs => Json.beqFieldsRefl fs

/-- Reflexivity of the elementwise array equality test. -/
def Json.beqListRefl : (xs : List Json) → Json.beqList xs xs = true
  | [] => rfl
  | x :: xs => by
      simp [Json.beqList, Bool.and_eq_true]
      exact ⟨Json.beqRefl x, Json.beqListRefl xs⟩

/-- Reflexivity of the elementwise object field equality test. -/
def Json.beqFieldsRefl :
    (fs : List (String × Json)) → Json.beqFields fs fs = true
  | [] => rfl
  | (k, v) :: fs => by
      simp [Json.beqFields, Bool.and_eq_true]
      exact ⟨Json.beqRefl v, Json.beqFieldsRefl fs⟩

end

/-- The JSON equality test agrees with propositional equality. -/
theorem Json.beq_iff_eq (a b : Json) : Json.beq a b = true ↔ a = b :=
  ⟨Json.eqOfBeq a b, fun h => h ▸ Json.beqRefl a⟩

/-- A false JSON equality test means distinct values. -/
theorem Json.beq_eq_false_iff (a b : Json) :
    Json.beq a b = false ↔ a ≠ b := by
  rw [Bool.eq_false_iff]
  exact not_congr (Json.beq_iff_eq a b)

/-- The spec-modelled attribute getter is the key lookup with default. -/
theorem getAttribute_eq (j : Json) (k : String) (d : Json) :
    getAttribute j k d = (j.lookup k).getD d := by
  unfold getAttribute
  cases j.lookup k <;> rfl

/-- The spec-modelled class attribute getter is the key lookup bound
through the truthiness guard and the record constructor. -/
theorem classAttribute_eq (j : Json) (k : String) (mk : Json → α) :
    classAttribute j k mk =
      (j.lookup k).bind (fun v => if v.isTruthy then some (mk v) else none) := by
  unfold classAttribute
  cases j.lookup k <;> rfl

/-- The user field of a pull destination in terms of the key lookup. -/
theorem destination_user_eq (dest : Json) (dir : String) :
    (PullDestination.fromWire dest dir).user =
      (if ((dest.lookup "user").getD Json.null).isTruthy
        then some (User.mk ((dest.lookup "user").getD Json.null))
        else none) := by
  unfold PullDestination.fromWire
  cases h : dest.lookup "user" <;> simp [getAttribute, h]

/-- The repository field of a pull destination in terms of the lookup. -/
theorem destination_repository_eq (dest : Json) (dir : String) :
    (PullDestination.fromWire dest dir).repository =
      (if ((dest.lookup "repo").getD Json.null).isTruthy
        then some (Repository.mk ((dest.lookup "repo").getD Json.null))
        else none) := by
  unfold PullDestination.fromWire
  cases h : dest.lookup "repo" <;> simp [getAttribute, h]

/-- The update method issues at most one request. -/
theorem update_requests_len_le (p : PullRequest) (c : HttpClient)
    (t b s : Json) : (p.update c t b s).2.2.length ≤ 1 := by
  dsimp only [PullRequest.update]
  split
  · split <;> simp
  · simp

/-- C2: each of the five record types is built from the wire JSON by a
constructor populating every documented field from the corresponding key
of the JSON object, with a missing key yielding the null or default
value of the field; class-valued fields are built from a truthy value
under their key and absent otherwise. -/
theorem c2_fields_from_wire (pull pfile preview comment dest : Json)
    (dir : String) :
    (PullFile.fromWire pfile).sha = (pfile.lookup "sha").getD Json.null ∧
    (PullFile.fromWire pfile).filename =
      (pfile.lookup "filename").getD Json.null ∧
    (PullFile.fromWire pfile).status =
      (pfile.lookup "status").getD Json.null ∧
    (PullFile.fromWire pfile).additions_count =
      (pfile.lookup "additions").getD Json.null ∧
    (PullFile.fromWire pfile).deletions_count =
      (pfile.lookup "deletions").getD Json.null ∧
    (PullFile.fromWire pfile).changes_count =
      (pfile.lookup "changes").getD Json.null ∧
    (PullFile.fromWire pfile).blob_url =
      (pfile.lookup "blob_url").getD Json.null ∧
    (PullFile.fromWire pfile).raw_url =
      (pfile.lookup "raw_url").getD Json.null ∧
    (PullFile.fromWire pfile).patch =
      (pfile.lookup "patch").getD Json.null ∧
    (PullFile.fromWire pfile).contents_url =
      (pfile.lookup "contents_url").getD Json.null ∧
    (PullReview.fromWire preview).id =
      (preview.lookup "id").getD Json.null ∧
    (PullReview.fromWire preview).commit_id =
      (preview.lookup "commit_id").getD Json.null ∧
    (PullReview.fromWire preview).user =
      (preview.lookup "user").bind
        (fun v => if v.isTruthy then some (User.mk v) else none) ∧
    (PullReview.fromWire preview).state =
      (preview.lookup "state").getD Json.null ∧
    (PullReview.fromWire preview).created_at =
      (preview.lookup "created_at").getD Json.null ∧
    (PullReview.fromWire preview).body =
      (preview.lookup "body").getD Json.null ∧
    (PullReview.fromWire preview).pull_request_url =
      (preview.lookup "pull_request_url").getD Json.null ∧
    (ReviewComment.fromWire comment).api =
      (comment.lookup "url").getD Json.null ∧
    (ReviewComment.fromWire comment).id =
      (comment.lookup "id").getD Json.null ∧
    (ReviewComment.fromWire comment).body =
      (comment.lookup "body").getD Json.null ∧
    (ReviewComment.fromWire comment).created_at =
      (comment.lookup "created_at").getD Json.null ∧
    (ReviewComment.fromWire comment).updated_at =
      (comment.lookup "updated_at").getD Json.null ∧
    (ReviewComment.fromWire comment).user =
      (comment.lookup "user").bind
        (fun v => if v.isTruthy then some (User.mk v) else none) ∧
    (ReviewComment.fromWire comment).original_position =
      (comment.lookup "original_position").getD Json.null ∧
    (ReviewComment.fromWire comment).path =
      (comment.lookup "path").getD Json.null ∧
    (ReviewComment.fromWire comment).position =
      (comment.lookup "position").getD Json.null ∧
    (ReviewComment.fromWire comment).commit_id =
      (comment.lookup "commit_id").getD Json.null ∧
    (ReviewComment.fromWire comment).diff_hunk =
      (comment.lookup "diff_hunk").getD Json.null ∧
    (ReviewComment.fromWire comment).original_commit_id =
      (comment.lookup "original_commit_id").getD Json.null ∧
    (ReviewComment.fromWire comment).pull_request_url =
      (comment.lookup "pull_request_url").getD Json.null ∧
    (PullDestination.fromWire dest dir).direction = dir ∧
    (PullDestination.fromWire dest dir).ref =
      (dest.lookup "ref").getD Json.null ∧
    (PullDestination.fromWire dest dir).label =
      (dest.lookup "label").getD Json.null ∧
    (PullDestination.fromWire dest dir).sha =
      (dest.lookup "sha").getD Json.null ∧
    (PullDestination.fromWire dest dir).user =
      (if ((dest.lookup "user").getD Json.null).isTruthy
        then some (User.mk ((dest.lookup "user").getD Json.null))
        else none) ∧
    (PullDestination.fromWire dest dir).repository =
      (if ((dest.lookup "repo").getD Json.null).isTruthy
        then some (Repository.mk ((dest.lookup "repo").getD Json.null))
        else none) ∧
    (PullDestination.fromWire dest dir).repo =
      ((PullDestination.fromWire dest dir).repoOwner,
        (PullDestination.fromWire dest dir).repoName) ∧
    (PullRequest.fromWire pull).api =
      (pull.lookup "url").getD Json.null ∧
    (PullRequest.fromWire pull).base =
      (pull.lookup "base").bind
        (fun v => if v.isTruthy
          then some (PullDestination.fromWire v "Base") else none) ∧
    (PullRequest.fromWire pull).body =
      (pull.lookup "body").getD Json.null ∧
    (PullRequest.fromWire pull).body_html =
      (pull.lookup "body_html").getD Json.null ∧
    (PullRequest.fromWire pull).body_text =
      (pull.lookup "body_text").getD Json.null ∧
    (PullRequest.fromWire pull).additions_count =
      (pull.lookup "additions").getD Json.null ∧
    (PullRequest.fromWire pull).deletions_count =
      (pull.lookup "deletions").getD Json.null ∧
    (PullRequest.fromWire pull).closed_at =
      (pull.lookup "closed_at").getD Json.null ∧
    (PullRequest.fromWire pull).comments_count =
      (pull.lookup "comments").getD Json.null ∧
    (PullRequest.fromWire pull).comments_url =
      (pull.lookup "comments_url").getD Json.null ∧
    (PullRequest.fromWire pull).commits_count =
      (pull.lookup "commits").getD Json.null ∧
    (PullRequest.fromWire pull).commits_url =
      (pull.lookup "commits_url").getD Json.null ∧
    (PullRequest.fromWire pull).created_at =
      (pull.lookup "created_at").getD Json.null ∧
    (PullRequest.fromWire pull).diff_url =
      (pull.lookup "diff_url").getD Json.null ∧
    (PullRequest.fromWire pull).head =
      (pull.lookup "head").bind
        (fun v => if v.isTruthy
          then some (PullDestination.fromWire v "Head") else none) ∧
    (PullRequest.fromWire pull).html_url =
      (pull.lookup "html_url").getD Json.null ∧
    (PullRequest.fromWire pull).id =
      (pull.lookup "id").getD Json.null ∧
    (PullRequest.fromWire pull).issue_url =
      (pull.lookup "issue_url").getD Json.null ∧
    (PullRequest.fromWire pull).statuses_url =
      (pull.lookup "statuses_url").getD Json.null ∧
    (PullRequest.fromWire pull).links =
      (pull.lookup "_links").getD (Json.obj []) ∧
    (PullRequest.fromWire pull).merged =
      (pull.lookup "merged").getD Json.null ∧
    (PullRequest.fromWire pull).merged_at =
      (pull.lookup "merged_at").getD Json.null ∧
    (PullRequest.fromWire pull).mergeable =
      (pull.lookup "mergeable").getD (Json.bool false) ∧
    (PullRequest.fromWire pull).mergeable_state =
      (pull.lookup "mergeable_state").getD Json.null ∧
    (PullRequest.fromWire pull).merged_by =
      (pull.lookup "merged_by").bind
        (fun v => if v.isTruthy then some (User.mk v) else none) ∧
    (PullRequest.fromWire pull).number =
      (pull.lookup "number").getD Json.null ∧
    (PullRequest.fromWire pull).patch_url =
      (pull.lookup "patch_url").getD Json.null ∧
    (PullRequest.fromWire pull).review_comment_url =
      (pull.lookup "review_comment_url").bind
        (fun v => if v.isTruthy then some (URITemplate.mk v) else none) ∧
    (PullRequest.fromWire pull).review_comments_count =
      (pull.lookup "review_comments").getD Json.null ∧
    (PullRequest.fromWire pull).review_comments_url =
      (pull.lookup "review_comments_url").getD Json.null ∧
    (PullRequest.fromWire pull).repository =
      ((PullRequest.fromWire pull).base).map (fun bd => bd.repo) ∧
    (PullRequest.fromWire pull).state =
      (pull.lookup "state").getD Json.null ∧
    (PullRequest.fromWire pull).title =
      (pull.lookup "title").getD Json.null ∧
    (PullRequest.fromWire pull).updated_at =
      (pull.lookup "updated_at").getD Json.null ∧
    (PullRequest.fromWire pull).user =
      (pull.lookup "user").bind
        (fun v => if v.isTruthy then some (User.mk v) else none) ∧
    (PullRequest.fromWire pull).assignee =
      (pull.lookup "assignee").bind
        (fun v => if v.isTruthy then some (User.mk v) else none) :=
  ⟨getAttribute_eq pfile "sha" Json.null,
    getAttribute_eq pfile "filename" Json.null,
    getAttribute_eq pfile "status" Json.null,
    getAttribute_eq pfile "additions" Json.null,
    getAttribute_eq pfile "deletions" Json.null,
    getAttribute_eq pfile "changes" Json.null,
    getAttribute_eq pfile "blob_url" Json.null,
    getAttribute_eq pfile "raw_url" Json.null,
    getAttribute_eq pfile "patch" Json.null,
    getAttribute_eq pfile "contents_url" Json.null,
    getAttribute_eq preview "id" Json.null,
    getAttribute_eq preview "commit_id" Json.null,
    classAttribute_eq preview "user" User.mk,
    getAttribute_eq preview "state" Json.null,
    getAttribute_eq preview "created_at" Json.null,
    getAttribute_eq preview "body" Json.null,
    getAttribute_eq preview "pull_request_url" Json.null,
    getAttribute_eq comment "url" Json.null,
    getAttribute_eq comment "id" Json.null,
    getAttribute_eq comment "body" Json.null,
    getAttribute_eq comment "created_at" Json.null,
    getAttribute_eq comment "updated_at" Json.null,
    classAttribute_eq comment "user" User.mk,
    getAttribute_eq comment "original_position" Json.null,
    getAttribute_eq comment "path" Json.null,
    getAttribute_eq comment "position" Json.null,
    getAttribute_eq comment "commit_id" Json.null,
    getAttribute_eq comment "diff_hunk" Json.null,
    getAttribute_eq comment "original_commit_id" Json.null,
    getAttribute_eq comment "pull_request_url" Json.null,
    rfl,
    getAttribute_eq dest "ref" Json.null,
    getAttribute_eq dest "label" Json.null,
    getAttribute_eq dest "sha" Json.null,
    destination_user_eq dest dir,
    destination_repository_eq dest dir,
    rfl,
    getAttribute_eq pull "url" Json.null,
    classAttribute_eq pull "base"
      (fun v => PullDestination.fromWire v "Base"),
    getAttribute_eq pull "body" Json.null,
    getAttribute_eq pull "body_html" Json.null,
    getAttribute_eq pull "body_text" Json.null,
    getAttribute_eq pull "additions" Json.null,
    getAttribute_eq pull "deletions" Json.null,
    getAttribute_eq pull "closed_at" Json.null,
    getAttribute_eq pull "comments" Json.null,
    getAttribute_eq pull "comments_url" Json.null,
    getAttribute_eq pull "commits" Json.null,
    getAttribute_eq pull "commits_url" Json.null,
    getAttribute_eq pull "created_at" Json.null,
    getAttribute_eq pull "diff_url" Json.null,
    classAttribute_eq pull "head"
      (fun v => PullDestination.fromWire v "Head"),
    getAttribute_eq pull "html_url" Json.null,
    getAttribute_eq pull "id" Json.null,
    getAttribute_eq pull "issue_url" Json.null,
    getAttribute_eq pull "statuses_url" Json.null,
    getAttribute_eq pull "_links" (Json.obj []),
    getAttribute_eq pull "merged" Json.null,
    getAttribute_eq pull "merged_at" Json.null,
    getAttribute_eq pull "mergeable" (Json.bool false),
    getAttribute_eq pull "mergeable_state" Json.null,
    classAttribute_eq pull "merged_by" User.mk,
    getAttribute_eq pull "number" Json.null,
    getAttribute_eq pull "patch_url" Json.null,
    classAttribute_eq pull "review_comment_url" URITemplate.mk,
    getAttribute_eq pull "review_comments" Json.null,
    getAttribute_eq pull "review_comments_url" Json.null,
    rfl,
    getAttribute_eq pull "state" Json.null,
    getAttribute_eq pull "title" Json.null,
    getAttribute_eq pull "updated_at" Json.null,
    classAttribute_eq pull "user" User.mk,
    classAttribute_eq pull "assignee" User.mk⟩

/-- C3: every list-returning method of PullRequest delegates to the one
generic lazy pagination helper, handing it the requested count, the URL
built for its endpoint and the element record constructor, and returns
the lazy sequence the helper produces. -/
theorem c3_pagination_shared (p : PullRequest) (n : Int)
    (e : Option String) :
    p.commits n e =
      iterHelper n (buildUrl "commits" p.api) RepoCommit.mk e [] ∧
    p.files n e =
      iterHelper n (buildUrl "files" p.api) PullFile.fromWire e [] ∧
    p.review_comments n e =
      iterHelper n (buildUrl "comments" p.api) ReviewComment.fromWire e [] ∧
    p.reviews n e =
      iterHelper n (buildUrl "reviews" p.api) PullReview.fromWire e
        [("Accept", "application/vnd.github.black-cat-preview+json")] ∧
    p.issue_comments n e =
      iterHelper n
        (if !(getAttribute (getAttribute p.links "comments" (Json.obj []))
            "href" Json.null).isTruthy
          then buildUrl "comments"
            (Json.str ((p.api.asString).replace "pulls" "issues"))
          else getAttribute (getAttribute p.links "comments" (Json.obj []))
            "href" Json.null)
        IssueComment.mk e [] :=
  ⟨rfl, rfl, rfl, rfl, rfl⟩

/-- C7: diff and patch each issue a single GET on the pull request URL
with the corresponding Accept header and return the raw content at
status 200 and the empty bytestring otherwise. -/
theorem c7_diff_patch_raw (p : PullRequest) (c : HttpClient) :
    p.diff c =
      ((if (c (getReq p.api
            [("Accept", "application/vnd.github.diff")])).status = 200
        then (c (getReq p.api
            [("Accept", "application/vnd.github.diff")])).content
        else ""),
        [getReq p.api [("Accept", "application/vnd.github.diff")]]) ∧
    p.patch c =
      ((if (c (getReq p.api
            [("Accept", "application/vnd.github.patch")])).status = 200
        then (c (getReq p.api
            [("Accept", "application/vnd.github.patch")])).content
        else ""),
        [getReq p.api [("Accept", "application/vnd.github.patch")]]) := by
  constructor <;>
    simp [PullRequest.diff, PullRequest.patch, booleanHelper]

/-- C8: two PullRequest instances compare equal exactly when their ids
are equal and unequal exactly when their ids differ, and the same law
holds for ReviewComment instances. -/
theorem c8_equality_by_id (p1 p2 : PullRequest)
    (c1 c2 : ReviewComment) :
    (PullRequest.eqById p1 p2 = true ↔ p1.id = p2.id) ∧
    (PullRequest.neById p1 p2 = true ↔ p1.id ≠ p2.id) ∧
    (ReviewComment.eqById c1 c2 = true ↔ c1.id = c2.id) ∧
    (ReviewComment.neById c1 c2 = true ↔ c1.id ≠ c2.id) := by
  refine ⟨Json.beq_iff_eq p1.id p2.id, ?_,
    Json.beq_iff_eq c1.id c2.id, ?_⟩ <;>
    simp [PullRequest.neById, PullRequest.eqById, ReviewComment.neById,
      ReviewComment.eqById, Json.beq_eq_false_iff]

/-- C4: follow-on operations address the service through URLs stored on
the record: issue GETs the stored issue_url and decodes at 200 into an
Issue, contents GETs the stored contents_url and decodes at 200 into a
Contents, and create_comment POSTs the comment body to the stored
comments_url and decodes at 201 into an IssueComment (a falsy body
issues nothing and yields null). -/
theorem c4_follow_on_urls (p : PullRequest) (f : PullFile)
    (c : HttpClient) (body : Json) :
    p.issue c =
      (instanceOrNull Issue.mk
        (jsonHelper (c (getReq p.issue_url [])) 200),
        [getReq p.issue_url []]) ∧
    f.contents c =
      (instanceOrNull Contents.mk
        (jsonHelper (c (getReq f.contents_url [])) 200),
        [getReq f.contents_url []]) ∧
    p.create_comment c body =
      (if body.isTruthy then
        (instanceOrNull IssueComment.mk
          (jsonHelper
            (c (postReq p.comments_url (Json.obj [("body", body)]))) 201),
          [postReq p.comments_url (Json.obj [("body", body)])])
      else (none, [])) :=
  ⟨rfl, rfl, rfl⟩

/-- C1, counterexample: update with all three fields None issues zero
requests rather than exactly one, refuting the claim that no call
issues zero requests. -/
theorem c1_counterexample :
    (samplePR.update clientEmptyObj Json.null Json.null
      Json.null).2.2.length = 0 := rfl

/-- C1, amended: every public operation of the four record types issues
at most one HTTP request per call (the lazy pagination constructors
issue none at call time, and the documented early returns of update,
create_comment and is_merged issue none). -/
theorem c1_at_most_one_request (p : PullRequest) (f : PullFile)
    (rc : ReviewComment) (c : HttpClient)
    (body commit_id path cm sha squash title state : Json)
    (position : Int) :
    (p.is_merged c).2.length ≤ 1 ∧
    (p.diff c).2.length ≤ 1 ∧
    (p.patch c).2.length ≤ 1 ∧
    (p.issue c).2.length ≤ 1 ∧
    (p.create_comment c body).2.length ≤ 1 ∧
    (p.create_review_comment c body commit_id path position).2.length ≤ 1 ∧
    (p.merge c cm sha squash).2.length ≤ 1 ∧
    (p.update c title body state).2.2.length ≤ 1 ∧
    (p.close c).2.2.length ≤ 1 ∧
    (p.reopen c).2.2.length ≤ 1 ∧
    (f.contents c).2.length ≤ 1 ∧
    (rc.reply c body).2.length ≤ 1 := by
  refine ⟨?_, ?_, ?_, ?_, ?_, ?_, ?_,
    update_requests_len_le p c title body state,
    update_requests_len_le p c p.title p.body (Json.str "closed"),
    update_requests_len_le p c p.title p.body (Json.str "open"),
    ?_, ?_⟩
  · dsimp only [PullRequest.is_merged]
    split <;> simp
  · simp [PullRequest.diff]
  · simp [PullRequest.patch]
  · simp [PullRequest.issue]
  · dsimp only [PullRequest.create_comment]
    split <;> simp
  · simp [PullRequest.create_review_comment]
  · dsimp only [PullRequest.merge]
    split <;> split <;> split <;> simp
  · simp [PullFile.contents]
  · simp [ReviewComment.reply]

/-- C5, counterexample: against a client answering status 200 with the
empty JSON object (a non-null object), update returns False instead of
the True the claim predicts. -/
theorem c5_counterexample :
    jsonHelper (clientEmptyObj (patchReq samplePR.api
      (Json.obj [("title", Json.str "x")]))) 200 = Json.obj [] ∧
    (Json.obj ([] : List (String × Json))).isNull = false ∧
    (samplePR.update clientEmptyObj (Json.str "x") Json.null
      Json.null).1 = false :=
  ⟨rfl, rfl, rfl⟩

/-- C5, amended: update issues a single PATCH to the stored pull request
URL whose payload holds exactly the non-None fields among title, body
and state (no request at all when every field is None); when the
response decodes at status 200 to a truthy JSON value the attributes are
repopulated from it and the call returns True, and otherwise it returns
False with the record unchanged. -/
theorem c5_update_semantics (p : PullRequest) (c : HttpClient)
    (t b s : Json) :
    ((if t.isNull then [] else [("title", t)]) ++
      (if b.isNull then [] else [("body", b)]) ++
      (if s.isNull then [] else [("state", s)])).isEmpty =
        (t.isNull && b.isNull && s.isNull) ∧
    p.update c t b s =
      (if ((if t.isNull then [] else [("title", t)]) ++
          (if b.isNull then [] else [("body", b)]) ++
          (if s.isNull then [] else [("state", s)])).isEmpty
        then (false, p, [])
        else
          if (jsonHelper
              (c (patchReq p.api (Json.obj
                ((if t.isNull then [] else [("title", t)]) ++
                  (if b.isNull then [] else [("body", b)]) ++
                  (if s.isNull then [] else [("state", s)]))))) 200).isTruthy
          then
            (true,
              PullRequest.fromWire
                (jsonHelper
                  (c (patchReq p.api (Json.obj
                    ((if t.isNull then [] else [("title", t)]) ++
                      (if b.isNull then [] else [("body", b)]) ++
                      (if s.isNull then [] else
                        [("state", s)]))))) 200),
              [patchReq p.api (Json.obj
                ((if t.isNull then [] else [("title", t)]) ++
                  (if b.isNull then [] else [("body", b)]) ++
                  (if s.isNull then [] else [("state", s)])))])
          else
            (false, p,
              [patchReq p.api (Json.obj
                ((if t.isNull then [] else [("title", t)]) ++
                  (if b.isNull then [] else [("body", b)]) ++
                  (if s.isNull then [] else [("state", s)])))])) := by
  cases ht : t.isNull <;> cases hb : b.isNull <;> cases hs : s.isNull <;>
    simp [PullRequest.update, removeNone, List.filter, ht, hb, hs]

/-- C6, counterexample: against a client answering status 200 with the
empty JSON object (non-null), merge returns False, not the value of the
merged field of the response. -/
theorem c6_counterexample :
    jsonHelper (clientEmptyObj (putReq (buildUrl "merge" samplePR.api)
      (Json.obj [("squash", Json.bool false)]))) 200 = Json.obj [] ∧
    (Json.obj ([] : List (String × Json))).isNull = false ∧
    (samplePR.merge clientEmptyObj Json.null Json.null
      (Json.bool false)).1 = Json.bool false ∧
    Json.beq (Json.bool false)
      (Json.index (Json.obj []) "merged") = false :=
  ⟨rfl, rfl, rfl, rfl⟩

/-- C6, amended: merge issues a single PUT to the merge sub-URL with a
payload that always holds squash, holds sha exactly when sha is truthy
and holds commit_message exactly when it is not None; it returns False
when the decoded 200 response is falsy (null or empty) and the merged
field of the response otherwise. -/
theorem c6_merge_semantics (p : PullRequest) (c : HttpClient)
    (cm sha squash : Json) :
    List.lookup "squash"
      ([("squash", squash)] ++
        (if sha.isTruthy then [("sha", sha)] else []) ++
        (if !cm.isNull then [("commit_message", cm)] else [])) =
      some squash ∧
    List.lookup "sha"
      ([("squash", squash)] ++
        (if sha.isTruthy then [("sha", sha)] else []) ++
        (if !cm.isNull then [("commit_message", cm)] else [])) =
      (if sha.isTruthy then some sha else none) ∧
    List.lookup "commit_message"
      ([("squash", squash)] ++
        (if sha.isTruthy then [("sha", sha)] else []) ++
        (if !cm.isNull then [("commit_message", cm)] else [])) =
      (if cm.isNull then none else some cm) ∧
    (p.merge c cm sha squash).2 =
      [putReq (buildUrl "merge" p.api)
        (Json.obj ([("squash", squash)] ++
          (if sha.isTruthy then [("sha", sha)] else []) ++
          (if !cm.isNull then [("commit_message", cm)] else [])))] ∧
    (p.merge c cm sha squash).1 =
      (if (jsonHelper
          (c (putReq (buildUrl "merge" p.api)
            (Json.obj ([("squash", squash)] ++
              (if sha.isTruthy then [("sha", sha)] else []) ++
              (if !cm.isNull then [("commit_message", cm)]
                else []))))) 200).isTruthy
        then Json.index
          (jsonHelper
            (c (putReq (buildUrl "merge" p.api)
              (Json.obj ([("squash", squash)] ++
                (if sha.isTruthy then [("sha", sha)] else []) ++
                (if !cm.isNull then [("commit_message", cm)]
                  else []))))) 200) "merged"
        else Json.bool false) := by
  cases hs : sha.isTruthy <;> cases hc : cm.isNull <;>
    simp [PullRequest.merge, List.lookup, hs, hc] <;>
    split <;> simp_all

/-- C9: update with title, body and state all None issues no request,
returns False and leaves the record unchanged. -/
theorem c9_update_all_none_noop (p : PullRequest) (c : HttpClient) :
    p.update c Json.null Json.null Json.null = (false, p, []) := rfl

/-- C10: when the stored merged attribute is truthy, is_merged returns
it without a request; otherwise it issues one GET on the merge sub-URL
and reports whether the status is 204 (404 meaning not merged). -/
theorem c10_is_merged_shortcut (p : PullRequest) (c : HttpClient) :
    p.is_merged c =
      if p.merged.isTruthy then (p.merged, [])
      else
        (Json.bool
          ((c (getReq (buildUrl "merge" p.api) [])).status == 204),
          [getReq (buildUrl "merge" p.api) []]) := rfl

end GH3
